import Mathlib

/-!
Shallow embedding of the timeline reconstruction engine of the
mcs-agent-analyser repository (src/timeline.py, with the topic-name
resolver from src/parser.py and the data model from src/models.py).

Python strings are modelled as Lean String values; Python string
operations that the source uses (slicing, len, replace, rstrip, split,
join, title) operate on code points, so they are implemented over the
underlying character list, which matches Python semantics exactly.
Python datetime values are modelled by the PyDateTime structure below;
millisecond durations (Python floats obtained from exact microsecond
differences) are modelled as exact rationals.
-/

/-- Python truthiness of a string: non-empty. -/
def pyTruthy (s : String) : Bool := s ≠ ""

/-- Python truthiness of an optional string: present and non-empty. -/
def pyTruthyO (o : Option String) : Bool :=
  match o with
  | some s => s ≠ ""
  | none => false

/-- Python str.rstrip(chars): drop trailing characters belonging to the set. -/
def pyRstrip (s : String) (cs : List Char) : String :=
  String.mk ((s.data.reverse.dropWhile (fun c => cs.contains c)).reverse)

/-- Python single-character str.replace: replace every occurrence of the
character pat by the string rep (models str.replace for the one-character
patterns used by the source). -/
def pyReplaceChar (s : String) (pat : Char) (rep : String) : String :=
  String.mk (s.data.flatMap (fun c => if c = pat then rep.data else [c]))

/-- Python slicing s[:n] by code points. -/
def pyTake (s : String) (n : Nat) : String :=
  String.mk (s.data.take n)

/-- Python len(s) in code points. -/
def pyLen (s : String) : Nat := s.data.length

/-- Python str(bool). -/
def pyBoolStr (b : Bool) : String := if b then "True" else "False"

/-- Worker of pySplitChar: splits the remaining characters on the
separator, with the characters of the current piece accumulated in
reverse. -/
def splitCharAux (sep : Char) : List Char → List Char → List String
  | [], acc => [String.mk acc.reverse]
  | c :: rest, acc =>
    if c = sep then String.mk acc.reverse :: splitCharAux sep rest []
    else splitCharAux sep rest (c :: acc)

/-- Python str.split(sep) for a one-character separator, which is every
split the source performs; the empty string yields one empty piece. -/
def pySplitChar (s : String) (sep : Char) : List String :=
  splitCharAux sep s.data []

/-- Python sep.join(xs). -/
def pyJoin (sep : String) : List String → String
  | [] => ""
  | x :: rest => rest.foldl (fun acc y => acc ++ sep ++ y) x

/-- Python str.title restricted to ASCII letters: the first letter of every
maximal letter run is upper-cased, the rest lower-cased. -/
def pyTitleAux : List Char → Bool → List Char
  | [], _ => []
  | c :: rest, prevCased =>
    if c.isAlpha then
      (if prevCased then c.toLower else c.toUpper) :: pyTitleAux rest true
    else
      c :: pyTitleAux rest false

/-- Python str.title (ASCII model). -/
def pyTitle (s : String) : String := String.mk (pyTitleAux s.data false)

/-- The apostrophe character, used by the Python repr of dict values. -/
def squoteChar : Char := Char.ofNat 39

/-- Opening brace character. -/
def lbraceChar : Char := Char.ofNat 123

/-- Closing brace character. -/
def rbraceChar : Char := Char.ofNat 125

/-- Python str(dict) for a string-to-string dict (JSON-object payloads),
used by the source only as the fallback error message str(error). -/
def pyDictStr (kvs : List (String × String)) : String :=
  String.singleton lbraceChar ++
    pyJoin ", "
      (kvs.map (fun kv =>
        String.singleton squoteChar ++ kv.1 ++ String.singleton squoteChar ++ ": " ++
        String.singleton squoteChar ++ kv.2 ++ String.singleton squoteChar)) ++
    String.singleton rbraceChar

/-- Round half to even, as Python float formatting with :.0f does; the
fractional part q - floor q is compared with one half through the
integers 2 * (num - floor * den) versus den. -/
def roundHalfEven (q : ℚ) : ℤ :=
  let f : ℤ := ⌊q⌋
  let r2 : ℤ := 2 * (q.num - f * (q.den : ℤ))
  if r2 < (q.den : ℤ) then f
  else if (q.den : ℤ) < r2 then f + 1
  else if f % 2 = 0 then f else f + 1

/-- Python format of a non-negative millisecond float with :.0f. -/
def pyFmt0f (q : ℚ) : String := toString (roundHalfEven q)

/-- Decimal zero-padding of a natural number to width w. -/
def padNum (w : Nat) (n : Nat) : String :=
  let s := toString n
  String.mk (List.replicate (w - s.data.length) '0') ++ s

/-- A parsed Python datetime value (naive; the source treats every parsed
instant as UTC). -/
structure PyDateTime where
  year : Nat
  month : Nat
  day : Nat
  hour : Nat
  minute : Nat
  second : Nat
  microsecond : Nat
deriving DecidableEq, Repr

/-- Proleptic-Gregorian leap-year test, as Python datetime uses. -/
def isLeapYear (y : Nat) : Bool := y % 4 = 0 ∧ (y % 100 ≠ 0 ∨ y % 400 = 0)

/-- Days in the given month of the given year. -/
def _days_in_month (y m : Nat) : Nat :=
  match m with
  | 1 => 31
  | 2 => if isLeapYear y then 29 else 28
  | 3 => 31
  | 4 => 30
  | 5 => 31
  | 6 => 30
  | 7 => 31
  | 8 => 31
  | 9 => 30
  | 10 => 31
  | 11 => 30
  | 12 => 31
  | _ => 0

/-- Days before January 1 of year y, counting from 0001-01-01 (ordinal
day number algorithm of the Python datetime module). -/
def _days_before_year (y : Nat) : Nat :=
  365 * (y - 1) + (y - 1) / 4 + (y - 1) / 400 - (y - 1) / 100

/-- Days in year y before the first day of month m. -/
def _days_before_month (y m : Nat) : Nat :=
  let base :=
    match m with
    | 1 => 0
    | 2 => 31
    | 3 => 59
    | 4 => 90
    | 5 => 120
    | 6 => 151
    | 7 => 181
    | 8 => 212
    | 9 => 243
    | 10 => 273
    | 11 => 304
    | 12 => 334
    | _ => 0
  base + (if 2 < m ∧ isLeapYear y then 1 else 0)

/-- Proleptic-Gregorian ordinal of a date (0001-01-01 is day 1), as
Python datetime.toordinal computes it. -/
def toOrdinal (y m d : Nat) : Nat :=
  _days_before_year y + _days_before_month y m + d

/-- Microseconds of a datetime since 0001-01-01T00:00:00; datetime
subtraction in Python is exactly the difference of these counts. -/
def PyDateTime.toMicros (dt : PyDateTime) : ℤ :=
  ((toOrdinal dt.year dt.month dt.day : ℤ) - 1) * 86400000000
    + ((dt.hour * 3600 + dt.minute * 60 + dt.second : Nat) : ℤ) * 1000000
    + (dt.microsecond : ℤ)

/-- Read exactly n ASCII digits from the front of a character list. -/
def takeDigits : Nat → Nat → List Char → Option (Nat × List Char)
  | 0, acc, cs => some (acc, cs)
  | _ + 1, _, [] => none
  | n + 1, acc, c :: cs =>
    if c.isDigit then takeDigits n (acc * 10 + (c.toNat - 48)) cs else none

/-- Numeric value of a list of ASCII digits. -/
def digitsVal (cs : List Char) : Nat :=
  cs.foldl (fun acc c => acc * 10 + (c.toNat - 48)) 0

/-- Fractional-second digits (1 to 6 of them, to end of input) as a
microsecond count. -/
def parseFrac (cs : List Char) : Option Nat :=
  if cs ≠ [] ∧ cs.length ≤ 6 ∧ cs.all (fun c => c.isDigit) then
    some (digitsVal cs * 10 ^ (6 - cs.length))
  else none

/-- Time-of-day part of an ISO string after the date: empty, or one
separator character followed by HH, HH:MM, HH:MM:SS, or HH:MM:SS.ffffff
(fraction introduced by a dot or a comma), running to end of input.
Models datetime.fromisoformat of Python 3.11 on the colon-separated forms
the source encounters (the no-colon compact forms are not modelled). -/
def parseTimePart : List Char → Option (Nat × Nat × Nat × Nat)
  | [] => some (0, 0, 0, 0)
  | _ :: rest =>
    match takeDigits 2 0 rest with
    | none => none
    | some (hh, r) =>
      match r with
      | [] => some (hh, 0, 0, 0)
      | ':' :: r2 =>
        match takeDigits 2 0 r2 with
        | none => none
        | some (mi, r3) =>
          match r3 with
          | [] => some (hh, mi, 0, 0)
          | ':' :: r4 =>
            match takeDigits 2 0 r4 with
            | none => none
            | some (ss, r5) =>
              match r5 with
              | [] => some (hh, mi, ss, 0)
              | c :: r6 =>
                if c = '.' ∨ c = ',' then
                  match parseFrac r6 with
                  | some us => some (hh, mi, ss, us)
                  | none => none
                else none
          | _ => none
      | _ => none

/-- Model of Python datetime.fromisoformat on naive ISO strings
(YYYY-MM-DD optionally followed by a separator character and a time of
day); offset-bearing and compact digit-only forms are not modelled, as
the caller strips the offsets the source data carries before this point.
Returns none exactly when Python would raise ValueError. -/
def fromisoformat (s : String) : Option PyDateTime := do
  let (y, r1) ← takeDigits 4 0 s.data
  match r1 with
  | '-' :: r2 =>
    let (mo, r3) ← takeDigits 2 0 r2
    match r3 with
    | '-' :: r4 =>
      let (d, r5) ← takeDigits 2 0 r4
      let (hh, mi, ss, us) ← parseTimePart r5
      if 1 ≤ y ∧ 1 ≤ mo ∧ mo ≤ 12 ∧ 1 ≤ d ∧ d ≤ _days_in_month y mo ∧
          hh ≤ 23 ∧ mi ≤ 59 ∧ ss ≤ 59 then
        some ⟨y, mo, d, hh, mi, ss, us⟩
      else none
    | _ => none
  | _ => none

/-- Portion of s before its last occurrence of sep:
Python s.rsplit(sep, 1)[0]. -/
def pyRsplitBefore (s : String) (sep : Char) : String :=
  let parts := pySplitChar s sep
  pyJoin (String.singleton sep) parts.dropLast

/-- src/timeline.py _parse_timestamp: parse an ISO timestamp string to a
datetime, returning none on malformed input. Faithfully reproduces the
rstrip calls of the source (Python rstrip removes a trailing character
SET, not a suffix), the rsplit on the plus sign, and the truncation of
fractional seconds to 6 digits. -/
def _parse_timestamp (ts : Option String) : Option PyDateTime :=
  match ts with
  | none => none
  | some ts0 =>
    if ts0 = "" then none
    else
      let ts1 := pyRstrip (pyRstrip ts0 ['Z']) ['+', '0', ':']
      let ts_part := if ts1.data.contains '+' then pyRsplitBefore ts1 '+' else ts1
      let ts_part :=
        if ts_part.data.contains '.' then
          match pySplitChar ts_part '.' with
          | main :: rest =>
            main ++ "." ++ pyTake (pyJoin "." rest) 6
          | [] => ts_part
        else ts_part
      fromisoformat ts_part

/-- Date of the day a given number of days after 1970-01-01
(civil-from-days algorithm; all intermediate divisions act on
non-negative operands, so truncating division is exact). -/
def civilFromDays (z0 : ℤ) : ℤ × ℤ × ℤ :=
  let z := z0 + 719468
  let era := Int.fdiv z 146097
  let doe := z - era * 146097
  let yoe := (doe - doe / 1460 + doe / 36524 - doe / 146096) / 365
  let y := yoe + era * 400
  let doy := doe - (365 * yoe + yoe / 4 - yoe / 100)
  let mp := (5 * doy + 2) / 153
  let d := doy - (153 * mp + 2) / 5 + 1
  let m := mp + (if mp < 10 then 3 else -9)
  (y + (if m ≤ 2 then 1 else 0), m, d)

/-- src/timeline.py _epoch_to_iso: convert epoch milliseconds to the ISO
string Python datetime.fromtimestamp(x, utc).isoformat() renders
(with the +00:00 suffix, and the microsecond field only when non-zero);
none for a missing input or a year outside 1..9999. -/
def _epoch_to_iso (epoch_ms : Option ℤ) : Option String :=
  match epoch_ms with
  | none => none
  | some v =>
    let micros := v * 1000
    let days := Int.fdiv micros 86400000000
    let rem := (micros - days * 86400000000).toNat
    let ymd := civilFromDays days
    if ymd.1 < 1 ∨ 9999 < ymd.1 then none
    else
      let hh := rem / 3600000000
      let mi := rem % 3600000000 / 60000000
      let ss := rem % 60000000 / 1000000
      let us := rem % 1000000
      some (padNum 4 ymd.1.toNat ++ "-" ++ padNum 2 ymd.2.1.toNat ++ "-" ++
        padNum 2 ymd.2.2.toNat ++ "T" ++ padNum 2 hh ++ ":" ++ padNum 2 mi ++
        ":" ++ padNum 2 ss ++ (if us ≠ 0 then "." ++ padNum 6 us else "") ++
        "+00:00")

/-- src/timeline.py _ms_between: milliseconds between two ISO timestamp
strings, 0.0 unless both parse. Exact rational model of the float the
source computes from the microsecond-exact datetime difference. -/
def _ms_between (start «end» : Option String) : ℚ :=
  match _parse_timestamp start, _parse_timestamp «end» with
  | some ds, some de => Rat.divInt (de.toMicros - ds.toMicros) 1000
  | _, _ => 0


/-- Closed enumeration of event types (src/models.py EventType). -/
inductive EventType where
  | USER_MESSAGE
  | BOT_MESSAGE
  | PLAN_RECEIVED
  | PLAN_RECEIVED_DEBUG
  | STEP_TRIGGERED
  | STEP_FINISHED
  | PLAN_FINISHED
  | DIALOG_TRACING
  | KNOWLEDGE_SEARCH
  | VARIABLE_ASSIGNMENT
  | DIALOG_REDIRECT
  | ACTION_HTTP_REQUEST
  | ACTION_QA
  | ACTION_TRIGGER_EVAL
  | ACTION_BEGIN_DIALOG
  | ACTION_SEND_ACTIVITY
  | ERROR
  | OTHER
deriving DecidableEq, Repr

/-- src/models.py TimelineEvent. -/
structure TimelineEvent where
  timestamp : Option String := none
  position : ℤ := 0
  event_type : EventType := EventType.OTHER
  topic_name : Option String := none
  summary : String := ""
  state : Option String := none
  error : Option String := none
  step_id : Option String := none
  plan_identifier : Option String := none
deriving DecidableEq, Repr

/-- src/models.py ExecutionPhase. -/
structure ExecutionPhase where
  label : String
  phase_type : String := ""
  start : Option String := none
  «end» : Option String := none
  duration_ms : ℚ := 0
  state : String := "completed"
deriving DecidableEq, Repr

/-- src/models.py ConversationTimeline. -/
structure ConversationTimeline where
  bot_name : String := ""
  conversation_id : String := ""
  user_query : String := ""
  events : List TimelineEvent := []
  phases : List ExecutionPhase := []
  errors : List String := []
  total_elapsed_ms : ℚ := 0
deriving DecidableEq, Repr

/-- Sender descriptor of a raw activity (the "from" field). -/
structure Sender where
  role : String := ""
  name : String := ""

/-- Conversation descriptor of a raw activity. -/
structure Conversation where
  id : String := ""

/-- One sub-action of a DialogTracingInfo payload. -/
structure SubAction where
  topicId : String := ""
  actionType : String := ""
  exception : String := ""

/-- An element of an Adaptive Card body: its type tag, its text, and its
child element lists under the items, columns and body keys. -/
inductive CardEl where
  | mk (type : String) (text : String)
      (items : List CardEl) (columns : List CardEl) (body : List CardEl)

/-- An attachment: the body list of its content. -/
structure Attachment where
  body : List CardEl := []

/-- The nested value payload of an event or trace activity, with the
fields the source reads; absent fields take the neutral defaults the
Python dict.get calls substitute. The error field models the optional
JSON-object error payload of a step-finished record. -/
structure PyValue where
  steps : List String := []
  ask : String := ""
  planIdentifier : Option String := none
  planId : Option String := none
  taskDialogId : String := ""
  type : String := ""
  stepId : String := ""
  state : String := ""
  error : Option (List (String × String)) := none
  wasCancelled : Bool := false
  actions : List SubAction := []
  knowledgeSources : List String := []
  ErrorCode : Option String := none
  id : String := ""
  newValue : String := ""
  targetDialogId : String := ""

/-- One raw activity record with the fields build_timeline reads;
receivedAt models channelData["webchat:internal:received-at"] and
position models channelData["webchat:internal:position"]. -/
structure Activity where
  type : String := ""
  valueType : String := ""
  name : String := ""
  fromInfo : Sender := {}
  text : String := ""
  timestamp : Option String := none
  receivedAt : Option ℤ := none
  position : ℤ := 0
  conversation : Conversation := {}
  attachments : List Attachment := []
  value : PyValue := {}

/-- src/parser.py resolve_topic_name: display name from the lookup table,
else the last dot-separated segment when there are at least two segments,
else the schema name unchanged. -/
def resolve_topic_name (schema_name : String) (lookup : List (String × String)) : String :=
  match lookup.lookup schema_name with
  | some v => v
  | none =>
    let parts := pySplitChar schema_name '.'
    if 2 ≤ parts.length then parts.getLastD "" else schema_name

/-- src/timeline.py _get_timestamp: the activity timestamp if truthy,
else the ISO rendering of the channel-data received-at epoch if truthy,
else none. -/
def _get_timestamp (a : Activity) : Option String :=
  if pyTruthyO a.timestamp then a.timestamp
  else
    match a.receivedAt with
    | some v => if v ≠ 0 then _epoch_to_iso (some v) else none
    | none => none

/-- Inner recursion of _extract_adaptive_card_text: walk elements
depth-first, collecting TextBlock texts, stopping at two fragments;
every call level re-checks the cap before handling an element. -/
def extractFromElements : List CardEl → List String → List String
  | [], texts => texts
  | CardEl.mk ty tx items cols body :: rest, texts =>
    if 2 ≤ texts.length then texts
    else
      let t1 := if ty = "TextBlock" ∧ tx ≠ "" then texts ++ [tx] else texts
      let t2 := extractFromElements items t1
      let t3 := extractFromElements cols t2
      let t4 := extractFromElements body t3
      extractFromElements rest t4
termination_by els _ => sizeOf els
decreasing_by all_goals simp <;> omega

/-- src/timeline.py _extract_adaptive_card_text: up to two text fragments
from the card bodies, joined and truncated to 150 characters with an
ellipsis, or the placeholder when nothing is extractable. -/
def _extract_adaptive_card_text (attachments : List Attachment) : String :=
  let texts := attachments.foldl
    (fun texts att => if 2 ≤ texts.length then texts else extractFromElements att.body texts)
    []
  if texts ≠ [] then
    let combined := pyJoin " | " texts
    if 150 < pyLen combined then pyTake combined 150 ++ "..." else combined
  else "[Adaptive Card]"

/-- Mutable state of one build_timeline invocation: the accumulator
collections and the step-correlation map (modelled as an association
list where the most recent binding for a key shadows older ones, matching
Python dict overwrite under List.lookup). -/
structure BuildState where
  events : List TimelineEvent := []
  phases : List ExecutionPhase := []
  errors : List String := []
  bot_name : String := ""
  conversation_id : String := ""
  user_query : String := ""
  first_timestamp : Option String := none
  last_timestamp : Option String := none
  step_triggers : List (String × String) := []

/-- The value-type tag: the valueType field, falling back to the name
field when empty (Python: the or of the two dict.get results). -/
def valueTypeOf (a : Activity) : String :=
  if a.valueType ≠ "" then a.valueType else a.name

/-- Truthiness of the optional error-object payload: a present, non-empty
dict (Python: error and isinstance of dict). -/
def errTruthy (error : Option (List (String × String))) : Bool :=
  match error with
  | some kvs => kvs ≠ []
  | none => false

/-- The formatted message of a step-finished error object: its message
key, else the Python str of the dict. -/
def errMessage (error : Option (List (String × String))) : String :=
  (((error.getD []).lookup "message")).getD (pyDictStr (error.getD []))

/-- Stable insertion of a string into a sorted list: the new element
goes before the first element not below it. -/
def insertSorted (x : String) : List String → List String
  | [] => [x]
  | y :: ys => if y < x then y :: insertSorted x ys else x :: y :: ys

/-- Lexicographic stable sort of strings, as Python sorted(). -/
def sortStrings (xs : List String) : List String :=
  xs.foldr insertSorted []

/-- The summary-accumulator part of the build_timeline loop body,
executed for every activity before any classification: first-write-wins
bot name and conversation id tracking, and first/last timestamp-string
bounds. -/
def trackSummary (st : BuildState) (a : Activity) : BuildState :=
  let timestamp := _get_timestamp a
  { st with
      bot_name :=
        if ¬ pyTruthy st.bot_name ∧ a.fromInfo.name ≠ "" ∧ a.fromInfo.role = "bot" then
          a.fromInfo.name
        else st.bot_name,
      conversation_id :=
        if ¬ pyTruthy st.conversation_id ∧ a.conversation.id ≠ "" then
          a.conversation.id
        else st.conversation_id,
      first_timestamp :=
        if pyTruthyO timestamp ∧ ¬ pyTruthyO st.first_timestamp then timestamp
        else st.first_timestamp,
      last_timestamp :=
        if pyTruthyO timestamp then timestamp else st.last_timestamp }

/-- The user-message branch of the build_timeline loop body. -/
def handleUserMessage (st : BuildState) (a : Activity) : BuildState :=
  let text := a.text
  { st with
      user_query := if ¬ pyTruthy st.user_query ∧ text ≠ "" then text else st.user_query,
      events := st.events ++
        [{ timestamp := _get_timestamp a,
           position := a.position,
           event_type := EventType.USER_MESSAGE,
           summary := if text ≠ "" then "User: \"" ++ text ++ "\"" else "User message" }] }

/-- The summary string of a bot message: message text (or card-extracted
text), newlines stripped, truncated to 120 characters. -/
def botSummaryText (a : Activity) : String :=
  let text :=
    if ¬ pyTruthy a.text ∧ ¬ a.attachments.isEmpty then _extract_adaptive_card_text a.attachments
    else a.text
  let clean_text := pyReplaceChar (pyReplaceChar text '\n' " ") '\r' ""
  if 120 < pyLen clean_text then pyTake clean_text 120 ++ "..." else clean_text

/-- The bot-message branch of the build_timeline loop body. -/
def handleBotMessage (st : BuildState) (a : Activity) : BuildState :=
  let summary := botSummaryText a
  { st with
      events := st.events ++
        [{ timestamp := _get_timestamp a,
           position := a.position,
           event_type := EventType.BOT_MESSAGE,
           summary := if summary ≠ "" then "Bot: " ++ summary else "Bot message" }] }

/-- The DynamicPlanReceived branch. -/
def handlePlanReceived (schema_lookup : List (String × String)) (st : BuildState) (a : Activity) : BuildState :=
  let step_names := a.value.steps.map (fun s => resolve_topic_name s schema_lookup)
  let tools_summary := if step_names ≠ [] then pyJoin ", " step_names else "unknown"
  { st with
      events := st.events ++
        [{ timestamp := _get_timestamp a,
           position := a.position,
           event_type := EventType.PLAN_RECEIVED,
           summary := "Plan: [" ++ tools_summary ++ "]",
           plan_identifier := a.value.planIdentifier }] }

/-- The DynamicPlanReceivedDebug branch. -/
def handlePlanReceivedDebug (st : BuildState) (a : Activity) : BuildState :=
  { st with
      events := st.events ++
        [{ timestamp := _get_timestamp a,
           position := a.position,
           event_type := EventType.PLAN_RECEIVED_DEBUG,
           summary := "Ask: \"" ++ a.value.ask ++ "\"",
           plan_identifier := a.value.planIdentifier }] }

/-- The DynamicPlanStepTriggered branch: records the trigger timestamp
for the step id when both are truthy (a new binding shadows any older one
for the same id, as Python dict assignment overwrites). -/
def handleStepTriggered (schema_lookup : List (String × String)) (st : BuildState) (a : Activity) : BuildState :=
  let topic := resolve_topic_name a.value.taskDialogId schema_lookup
  let timestamp := _get_timestamp a
  let step_id := a.value.stepId
  { st with
      step_triggers :=
        if step_id ≠ "" ∧ pyTruthyO timestamp then (step_id, timestamp.getD "") :: st.step_triggers
        else st.step_triggers,
      events := st.events ++
        [{ timestamp := timestamp,
           position := a.position,
           event_type := EventType.STEP_TRIGGERED,
           topic_name := some topic,
           summary := "Step start: " ++ topic ++ " (" ++ a.value.type ++ ")",
           state := some "inProgress",
           step_id := some step_id,
           plan_identifier := a.value.planIdentifier }] }

/-- The DynamicPlanStepFinished branch: joins the recorded trigger
timestamp, computes the duration, appends the error string for a failed
or error-carrying record, and appends the ExecutionPhase. -/
def handleStepFinished (schema_lookup : List (String × String)) (st : BuildState) (a : Activity) : BuildState :=
  let topic := resolve_topic_name a.value.taskDialogId schema_lookup
  let timestamp := _get_timestamp a
  let state := a.value.state
  let error := a.value.error
  let trigger_ts := st.step_triggers.lookup a.value.stepId
  let duration_ms :=
    if pyTruthyO trigger_ts ∧ pyTruthyO timestamp then _ms_between trigger_ts timestamp else 0
  let error_msg : Option String :=
    if errTruthy error then some (errMessage error)
    else if state = "failed" then some "Step failed"
    else none
  { st with
      errors :=
        if errTruthy error then st.errors ++ [topic ++ ": " ++ errMessage error]
        else if state = "failed" then st.errors ++ [topic ++ ": failed"]
        else st.errors,
      events := st.events ++
        [{ timestamp := timestamp,
           position := a.position,
           event_type := EventType.STEP_FINISHED,
           topic_name := some topic,
           summary := "Step end: " ++ topic ++ " [" ++ state ++ "]" ++
             (if 0 < duration_ms then " (" ++ pyFmt0f duration_ms ++ "ms)" else ""),
           state := some state,
           error := error_msg,
           step_id := some a.value.stepId,
           plan_identifier := a.value.planIdentifier }],
      phases := st.phases ++
        [{ label := topic,
           phase_type := a.value.type,
           start := trigger_ts,
           «end» := timestamp,
           duration_ms := duration_ms,
           state := state }] }

/-- The DynamicPlanFinished branch. -/
def handlePlanFinished (st : BuildState) (a : Activity) : BuildState :=
  { st with
      events := st.events ++
        [{ timestamp := _get_timestamp a,
           position := a.position,
           event_type := EventType.PLAN_FINISHED,
           summary := "Plan finished (cancelled=" ++ pyBoolStr a.value.wasCancelled ++ ")",
           plan_identifier := a.value.planId }] }

/-- The error strings a DialogTracingInfo record appends: one per
sub-action with a non-empty exception, in order. -/
def tracingErrors (schema_lookup : List (String × String)) (actions : List SubAction) : List String :=
  actions.filterMap (fun action =>
    if action.exception ≠ "" then
      some (resolve_topic_name action.topicId schema_lookup ++ "." ++
        action.actionType ++ ": " ++ action.exception)
    else none)

/-- The single coalesced summary string of a DialogTracingInfo record. -/
def tracingSummary (schema_lookup : List (String × String)) (actions : List SubAction) : String :=
  let action_types := actions.map (fun action => action.actionType)
  let topics_involved := sortStrings ((actions.filterMap (fun action =>
    if action.topicId ≠ "" then some (resolve_topic_name action.topicId schema_lookup)
    else none)).dedup)
  "Actions: " ++ pyJoin ", " (action_types.take 4) ++
    (if 4 < action_types.length then " (+" ++ toString (action_types.length - 4) ++ " more)"
     else "") ++
    (if topics_involved ≠ [] then " in " ++ pyJoin ", " topics_involved else "")

/-- The DialogTracingInfo branch: error strings per excepting sub-action,
then one DIALOG_TRACING event summarising all sub-actions. -/
def handleDialogTracing (schema_lookup : List (String × String)) (st : BuildState) (a : Activity) : BuildState :=
  { st with
      errors := st.errors ++ tracingErrors schema_lookup a.value.actions,
      events := st.events ++
        [{ timestamp := _get_timestamp a,
           position := a.position,
           event_type := EventType.DIALOG_TRACING,
           summary := tracingSummary schema_lookup a.value.actions }] }

/-- The UniversalSearchToolTraceData branch. -/
def handleKnowledgeSearch (st : BuildState) (a : Activity) : BuildState :=
  let source_names := a.value.knowledgeSources.map (fun s =>
    if s.data.contains '.' then (pySplitChar s '.').getLastD "" else s)
  { st with
      events := st.events ++
        [{ timestamp := _get_timestamp a,
           position := a.position,
           event_type := EventType.KNOWLEDGE_SEARCH,
           summary := "Knowledge search: [" ++ pyJoin ", " (source_names.take 3) ++
             "]" ++
             (if 3 < source_names.length then " (+" ++ toString (source_names.length - 3) ++ ")"
              else "") }] }

/-- The ErrorCode branch of the event cascade. -/
def handleEventErrorCode (st : BuildState) (a : Activity) : BuildState :=
  let error_code := a.value.ErrorCode.getD "Unknown"
  { st with
      errors := st.errors ++ ["ErrorCode: " ++ error_code],
      events := st.events ++
        [{ timestamp := _get_timestamp a,
           position := a.position,
           event_type := EventType.ERROR,
           summary := "Error: " ++ error_code,
           error := some error_code }] }

/-- The VariableAssignment branch of the trace cascade. -/
def handleVariableAssignment (st : BuildState) (a : Activity) : BuildState :=
  { st with
      events := st.events ++
        [{ timestamp := _get_timestamp a,
           position := a.position,
           event_type := EventType.VARIABLE_ASSIGNMENT,
           summary := pyTitle a.value.type ++ " " ++ a.value.id ++ " = " ++
             pyTake a.value.newValue 80 }] }

/-- The DialogRedirect branch of the trace cascade. -/
def handleDialogRedirect (st : BuildState) (a : Activity) : BuildState :=
  { st with
      events := st.events ++
        [{ timestamp := _get_timestamp a,
           position := a.position,
           event_type := EventType.DIALOG_REDIRECT,
           summary := "Redirect → " ++ pyTake a.value.targetDialogId 40 }] }

/-- The error-code fallback branch of the trace cascade. -/
def handleTraceErrorCode (st : BuildState) (a : Activity) : BuildState :=
  let error_code := a.value.ErrorCode.getD ""
  { st with
      errors := st.errors ++ ["ErrorCode: " ++ error_code],
      events := st.events ++
        [{ timestamp := _get_timestamp a,
           position := a.position,
           event_type := EventType.ERROR,
           summary := "Error: " ++ error_code,
           error := some error_code }] }

/-- The inner value-type cascade of the event branch. -/
def handleEvent (schema_lookup : List (String × String)) (st : BuildState) (a : Activity) : BuildState :=
  let value_type := valueTypeOf a
  if value_type = "DynamicPlanReceived" then handlePlanReceived schema_lookup st a
  else if value_type = "DynamicPlanReceivedDebug" then handlePlanReceivedDebug st a
  else if value_type = "DynamicPlanStepTriggered" then handleStepTriggered schema_lookup st a
  else if value_type = "DynamicPlanStepFinished" then handleStepFinished schema_lookup st a
  else if value_type = "DynamicPlanFinished" then handlePlanFinished st a
  else if value_type = "DialogTracingInfo" then handleDialogTracing schema_lookup st a
  else if value_type = "UniversalSearchToolTraceData" then handleKnowledgeSearch st a
  else if value_type = "ErrorCode" then handleEventErrorCode st a
  else st

/-- The inner value-type cascade of the trace branch. -/
def handleTrace (st : BuildState) (a : Activity) : BuildState :=
  let value_type := valueTypeOf a
  if value_type = "VariableAssignment" then handleVariableAssignment st a
  else if value_type = "DialogRedirect" then handleDialogRedirect st a
  else if pyTruthyO a.value.ErrorCode then handleTraceErrorCode st a
  else st

/-- The classification part of the build_timeline loop body: the typing
skip and the outer-type branch cascade, dispatching to the branch
handlers above. -/
def classify (schema_lookup : List (String × String)) (st : BuildState) (a : Activity) : BuildState :=
  if a.type = "typing" then st
  else if a.type = "message" ∧ a.fromInfo.role = "user" then handleUserMessage st a
  else if a.type = "message" ∧ a.fromInfo.role = "bot" then handleBotMessage st a
  else if a.type = "event" then handleEvent schema_lookup st a
  else if a.type = "trace" then handleTrace st a
  else st

/-- One iteration of the build_timeline loop: summary accumulators, then
classification. -/
def processActivity (schema_lookup : List (String × String)) (st : BuildState) (a : Activity) : BuildState :=
  classify schema_lookup (trackSummary st a) a

/-- src/timeline.py build_timeline: single pass over the sorted activity
sequence, returning the packaged ConversationTimeline. -/
def build_timeline (activities : List Activity) (schema_lookup : List (String × String)) : ConversationTimeline :=
  let st := activities.foldl (processActivity schema_lookup) {}
  { bot_name := st.bot_name,
    conversation_id := st.conversation_id,
    user_query := st.user_query,
    events := st.events,
    phases := st.phases,
    errors := st.errors,
    total_elapsed_ms := _ms_between st.first_timestamp st.last_timestamp }

/-! Frame lemmas: which fields each part of the loop body can touch. -/

theorem trackSummary_events (st : BuildState) (a : Activity) :
    (trackSummary st a).events = st.events := rfl

theorem trackSummary_phases (st : BuildState) (a : Activity) :
    (trackSummary st a).phases = st.phases := rfl

theorem trackSummary_errors (st : BuildState) (a : Activity) :
    (trackSummary st a).errors = st.errors := rfl

theorem trackSummary_user_query (st : BuildState) (a : Activity) :
    (trackSummary st a).user_query = st.user_query := rfl

theorem trackSummary_step_triggers (st : BuildState) (a : Activity) :
    (trackSummary st a).step_triggers = st.step_triggers := rfl


theorem handleEvent_bot_name (l : List (String × String)) (st : BuildState) (a : Activity) :
    (handleEvent l st a).bot_name = st.bot_name := by
  simp only [handleEvent]
  repeat' split
  all_goals rfl

theorem handleEvent_conversation_id (l : List (String × String)) (st : BuildState) (a : Activity) :
    (handleEvent l st a).conversation_id = st.conversation_id := by
  simp only [handleEvent]
  repeat' split
  all_goals rfl

theorem handleEvent_first_timestamp (l : List (String × String)) (st : BuildState) (a : Activity) :
    (handleEvent l st a).first_timestamp = st.first_timestamp := by
  simp only [handleEvent]
  repeat' split
  all_goals rfl

theorem handleEvent_last_timestamp (l : List (String × String)) (st : BuildState) (a : Activity) :
    (handleEvent l st a).last_timestamp = st.last_timestamp := by
  simp only [handleEvent]
  repeat' split
  all_goals rfl

theorem handleEvent_user_query (l : List (String × String)) (st : BuildState) (a : Activity) :
    (handleEvent l st a).user_query = st.user_query := by
  simp only [handleEvent]
  repeat' split
  all_goals rfl

theorem handleTrace_user_query (st : BuildState) (a : Activity) :
    (handleTrace st a).user_query = st.user_query := by
  simp only [handleTrace]
  repeat' split
  all_goals rfl

theorem classify_bot_name (l : List (String × String)) (st : BuildState) (a : Activity) :
    (classify l st a).bot_name = st.bot_name := by
  simp only [classify, handleTrace]
  repeat' split
  all_goals first
    | rfl
    | exact handleEvent_bot_name l st a

theorem classify_conversation_id (l : List (String × String)) (st : BuildState) (a : Activity) :
    (classify l st a).conversation_id = st.conversation_id := by
  simp only [classify, handleTrace]
  repeat' split
  all_goals first
    | rfl
    | exact handleEvent_conversation_id l st a

theorem classify_first_timestamp (l : List (String × String)) (st : BuildState) (a : Activity) :
    (classify l st a).first_timestamp = st.first_timestamp := by
  simp only [classify, handleTrace]
  repeat' split
  all_goals first
    | rfl
    | exact handleEvent_first_timestamp l st a

theorem classify_last_timestamp (l : List (String × String)) (st : BuildState) (a : Activity) :
    (classify l st a).last_timestamp = st.last_timestamp := by
  simp only [classify, handleTrace]
  repeat' split
  all_goals first
    | rfl
    | exact handleEvent_last_timestamp l st a

theorem handleUserMessage_user_query (st : BuildState) (a : Activity) :
    (handleUserMessage st a).user_query =
      if ¬ pyTruthy st.user_query ∧ a.text ≠ "" then a.text else st.user_query := rfl

theorem classify_user_query (l : List (String × String)) (st : BuildState) (a : Activity) :
    (classify l st a).user_query =
      if ¬ pyTruthy st.user_query ∧ a.type = "message" ∧ a.fromInfo.role = "user" ∧ a.text ≠ ""
      then a.text else st.user_query := by
  by_cases ht : a.type = "typing"
  · simp only [classify, if_pos ht]
    rw [if_neg]
    rintro ⟨-, hm, -⟩
    rw [ht] at hm
    exact absurd hm (by decide)
  by_cases hmu : a.type = "message" ∧ a.fromInfo.role = "user"
  · simp only [classify, if_neg ht, if_pos hmu, handleUserMessage_user_query]
    by_cases hq : ¬ pyTruthy st.user_query ∧ a.text ≠ ""
    · rw [if_pos hq, if_pos ⟨hq.1, hmu.1, hmu.2, hq.2⟩]
    · rw [if_neg hq, if_neg]
      rintro ⟨hx, -, -, hy⟩
      exact hq ⟨hx, hy⟩
  · have hL : (classify l st a).user_query = st.user_query := by
      simp only [classify, if_neg ht, if_neg hmu]
      split
      · rfl
      split
      · exact handleEvent_user_query l st a
      split
      · exact handleTrace_user_query st a
      rfl
    rw [hL, if_neg]
    rintro ⟨-, hm, hu, -⟩
    exact hmu ⟨hm, hu⟩

theorem trackSummary_bot_name (st : BuildState) (a : Activity) :
    (trackSummary st a).bot_name =
      if ¬ pyTruthy st.bot_name ∧ a.fromInfo.name ≠ "" ∧ a.fromInfo.role = "bot" then
        a.fromInfo.name
      else st.bot_name := rfl

theorem trackSummary_conversation_id (st : BuildState) (a : Activity) :
    (trackSummary st a).conversation_id =
      if ¬ pyTruthy st.conversation_id ∧ a.conversation.id ≠ "" then a.conversation.id
      else st.conversation_id := rfl

theorem trackSummary_first_timestamp (st : BuildState) (a : Activity) :
    (trackSummary st a).first_timestamp =
      if pyTruthyO (_get_timestamp a) ∧ ¬ pyTruthyO st.first_timestamp then _get_timestamp a
      else st.first_timestamp := rfl

theorem trackSummary_last_timestamp (st : BuildState) (a : Activity) :
    (trackSummary st a).last_timestamp =
      if pyTruthyO (_get_timestamp a) then _get_timestamp a else st.last_timestamp := rfl

theorem pyTruthy_iff (s : String) : pyTruthy s = true ↔ s ≠ "" := by
  simp [pyTruthy]

theorem pyTruthy_eq_false (s : String) : pyTruthy s = false ↔ s = "" := by
  simp [pyTruthy]

theorem pyTruthyO_false_parse (o : Option String) (h : pyTruthyO o = false) :
    _parse_timestamp o = none := by
  cases o with
  | none => rfl
  | some s =>
    have hs : s = "" := by simpa [pyTruthyO] using h
    simp [_parse_timestamp, hs]

theorem _ms_between_start_none (s e : Option String) (h : _parse_timestamp s = none) :
    _ms_between s e = 0 := by
  simp [_ms_between, h]

theorem _ms_between_end_none (s e : Option String) (h : _parse_timestamp e = none) :
    _ms_between s e = 0 := by
  unfold _ms_between
  rw [h]
  rcases _parse_timestamp s with _ | d <;> rfl

theorem classify_typing (l : List (String × String)) (st : BuildState) (a : Activity)
    (h : a.type = "typing") : classify l st a = st := by
  simp [classify, h]

theorem classify_event_stepTriggered (l : List (String × String)) (st : BuildState) (a : Activity)
    (h1 : a.type = "event") (h2 : valueTypeOf a = "DynamicPlanStepTriggered") :
    classify l st a = handleStepTriggered l st a := by
  simp [classify, handleEvent, h1, h2]

theorem classify_event_stepFinished (l : List (String × String)) (st : BuildState) (a : Activity)
    (h1 : a.type = "event") (h2 : valueTypeOf a = "DynamicPlanStepFinished") :
    classify l st a = handleStepFinished l st a := by
  simp [classify, handleEvent, h1, h2]

theorem classify_event_dialogTracing (l : List (String × String)) (st : BuildState) (a : Activity)
    (h1 : a.type = "event") (h2 : valueTypeOf a = "DialogTracingInfo") :
    classify l st a = handleDialogTracing l st a := by
  simp [classify, handleEvent, h1, h2]

/-- The condition under which an activity can set bot_name. -/
def isBotNameSource (a : Activity) : Bool :=
  decide (a.fromInfo.name ≠ "" ∧ a.fromInfo.role = "bot")

/-- The condition under which an activity can set conversation_id. -/
def isConvIdSource (a : Activity) : Bool :=
  decide (a.conversation.id ≠ "")

/-- The condition under which an activity can set user_query. -/
def isUserQuerySource (a : Activity) : Bool :=
  decide (a.type = "message" ∧ a.fromInfo.role = "user" ∧ a.text ≠ "")

theorem processActivity_bot_name (l : List (String × String)) (st : BuildState) (a : Activity) :
    (processActivity l st a).bot_name =
      if st.bot_name = "" ∧ isBotNameSource a = true then a.fromInfo.name else st.bot_name := by
  have h0 : (processActivity l st a).bot_name =
      if ¬ pyTruthy st.bot_name ∧ a.fromInfo.name ≠ "" ∧ a.fromInfo.role = "bot" then
        a.fromInfo.name
      else st.bot_name :=
    (classify_bot_name l (trackSummary st a) a).trans (trackSummary_bot_name st a)
  rw [h0]
  by_cases h1 : st.bot_name = ""
  · by_cases h2 : a.fromInfo.name ≠ "" ∧ a.fromInfo.role = "bot"
    · rw [if_pos ⟨by simp [pyTruthy, h1], h2⟩,
        if_pos ⟨h1, by simp [isBotNameSource, h2]⟩]
    · rw [if_neg (by rintro ⟨-, hx⟩; exact h2 hx),
        if_neg (by rintro ⟨-, hx⟩; exact h2 (by simpa [isBotNameSource] using hx))]
  · rw [if_neg (by rintro ⟨hx, -⟩; exact hx (by simp [pyTruthy, h1])),
      if_neg (by rintro ⟨hx, -⟩; exact h1 hx)]

theorem processActivity_conversation_id (l : List (String × String)) (st : BuildState) (a : Activity) :
    (processActivity l st a).conversation_id =
      if st.conversation_id = "" ∧ isConvIdSource a = true then a.conversation.id
      else st.conversation_id := by
  have h0 : (processActivity l st a).conversation_id =
      if ¬ pyTruthy st.conversation_id ∧ a.conversation.id ≠ "" then a.conversation.id
      else st.conversation_id :=
    (classify_conversation_id l (trackSummary st a) a).trans (trackSummary_conversation_id st a)
  rw [h0]
  by_cases h1 : st.conversation_id = ""
  · by_cases h2 : a.conversation.id ≠ ""
    · rw [if_pos ⟨by simp [pyTruthy, h1], h2⟩,
        if_pos ⟨h1, by simp [isConvIdSource, h2]⟩]
    · rw [if_neg (by rintro ⟨-, hx⟩; exact h2 hx),
        if_neg (by rintro ⟨-, hx⟩; exact h2 (by simpa [isConvIdSource] using hx))]
  · rw [if_neg (by rintro ⟨hx, -⟩; exact hx (by simp [pyTruthy, h1])),
      if_neg (by rintro ⟨hx, -⟩; exact h1 hx)]

theorem processActivity_user_query (l : List (String × String)) (st : BuildState) (a : Activity) :
    (processActivity l st a).user_query =
      if st.user_query = "" ∧ isUserQuerySource a = true then a.text else st.user_query := by
  have h0 : (processActivity l st a).user_query =
      if ¬ pyTruthy st.user_query ∧ a.type = "message" ∧ a.fromInfo.role = "user" ∧ a.text ≠ ""
      then a.text else st.user_query :=
    classify_user_query l (trackSummary st a) a
  rw [h0]
  by_cases h1 : st.user_query = ""
  · by_cases h2 : a.type = "message" ∧ a.fromInfo.role = "user" ∧ a.text ≠ ""
    · rw [if_pos ⟨by simp [pyTruthy, h1], h2⟩,
        if_pos ⟨h1, by simp [isUserQuerySource, h2]⟩]
    · rw [if_neg (by rintro ⟨-, hx⟩; exact h2 hx),
        if_neg (by rintro ⟨-, hx⟩; exact h2 (by simpa [isUserQuerySource] using hx))]
  · rw [if_neg (by rintro ⟨hx, -⟩; exact hx (by simp [pyTruthy, h1])),
      if_neg (by rintro ⟨hx, -⟩; exact h1 hx)]

/-- A first-write-wins string accumulator never changes once non-empty. -/
theorem firstWrite_stable (l : List (String × String)) (f : BuildState → String)
    (p : Activity → Bool) (v : Activity → String)
    (hstep : ∀ st a, f (processActivity l st a) =
      if f st = "" ∧ p a = true then v a else f st) :
    ∀ (acts : List Activity) (st : BuildState), f st ≠ "" →
      f (acts.foldl (processActivity l) st) = f st := by
  intro acts
  induction acts with
  | nil => intro st _; rfl
  | cons a acts ih =>
    intro st h
    rw [List.foldl_cons]
    have hs : f (processActivity l st a) = f st := by
      rw [hstep]
      rw [if_neg]
      rintro ⟨h1, -⟩
      exact h h1
    rw [ih _ (by rw [hs]; exact h), hs]

/-- A first-write-wins string accumulator that starts empty ends at the
value of the first qualifying activity, or empty if none qualifies. -/
theorem firstWrite_foldl (l : List (String × String)) (f : BuildState → String)
    (p : Activity → Bool) (v : Activity → String)
    (hstep : ∀ st a, f (processActivity l st a) =
      if f st = "" ∧ p a = true then v a else f st)
    (hv : ∀ a, p a = true → v a ≠ "") :
    ∀ (acts : List Activity) (st : BuildState), f st = "" →
      f (acts.foldl (processActivity l) st) =
        (match acts.find? p with
         | some a => v a
         | none => "") := by
  intro acts
  induction acts with
  | nil =>
    intro st h
    simpa [List.find?] using h
  | cons a acts ih =>
    intro st h
    rw [List.foldl_cons]
    by_cases hp : p a = true
    · have hs : f (processActivity l st a) = v a := by rw [hstep, if_pos ⟨h, hp⟩]
      rw [firstWrite_stable l f p v hstep acts _ (by rw [hs]; exact hv a hp), hs,
        List.find?_cons_of_pos _ hp]
    · have hs : f (processActivity l st a) = f st := by
        rw [hstep]
        rw [if_neg]
        rintro ⟨-, h2⟩
        exact hp h2
      rw [ih _ (hs.trans h), List.find?_cons_of_neg _ (by simpa using hp)]

/-- C6: bot_name equals the display name of the first activity whose
sender role is bot with a non-empty display name, conversation_id the
first non-empty conversation id, and user_query the text of the first
user message with non-empty text; later conflicting values never
overwrite any of the three. -/
theorem C6_first_write_wins
    (activities : List Activity) (schema_lookup : List (String × String)) :
    (build_timeline activities schema_lookup).bot_name =
        (match activities.find? isBotNameSource with
         | some a => a.fromInfo.name
         | none => "") ∧
    (build_timeline activities schema_lookup).conversation_id =
        (match activities.find? isConvIdSource with
         | some a => a.conversation.id
         | none => "") ∧
    (build_timeline activities schema_lookup).user_query =
        (match activities.find? isUserQuerySource with
         | some a => a.text
         | none => "") := by
  refine ⟨?_, ?_, ?_⟩
  · exact firstWrite_foldl schema_lookup BuildState.bot_name isBotNameSource
      (fun a => a.fromInfo.name) (processActivity_bot_name schema_lookup)
      (fun a ha => (of_decide_eq_true ha).1) activities {} rfl
  · exact firstWrite_foldl schema_lookup BuildState.conversation_id isConvIdSource
      (fun a => a.conversation.id) (processActivity_conversation_id schema_lookup)
      (fun a ha => of_decide_eq_true ha) activities {} rfl
  · exact firstWrite_foldl schema_lookup BuildState.user_query isUserQuerySource
      (fun a => a.text) (processActivity_user_query schema_lookup)
      (fun a ha => (of_decide_eq_true ha).2.2) activities {} rfl

/-- The timestamp string an activity contributes to the first/last
bounds: its _get_timestamp value when truthy, else nothing. -/
def tsOf (a : Activity) : Option String :=
  if pyTruthyO (_get_timestamp a) then _get_timestamp a else none

theorem processActivity_first_timestamp (l : List (String × String)) (st : BuildState) (a : Activity) :
    (processActivity l st a).first_timestamp =
      if pyTruthyO (_get_timestamp a) ∧ ¬ pyTruthyO st.first_timestamp then _get_timestamp a
      else st.first_timestamp :=
  (classify_first_timestamp l (trackSummary st a) a).trans (trackSummary_first_timestamp st a)

theorem processActivity_last_timestamp (l : List (String × String)) (st : BuildState) (a : Activity) :
    (processActivity l st a).last_timestamp =
      if pyTruthyO (_get_timestamp a) then _get_timestamp a else st.last_timestamp :=
  (classify_last_timestamp l (trackSummary st a) a).trans (trackSummary_last_timestamp st a)

theorem foldl_first_timestamp_stable (l : List (String × String)) :
    ∀ (acts : List Activity) (st : BuildState), pyTruthyO st.first_timestamp = true →
      (acts.foldl (processActivity l) st).first_timestamp = st.first_timestamp := by
  intro acts
  induction acts with
  | nil => intro st _; rfl
  | cons a acts ih =>
    intro st h
    rw [List.foldl_cons]
    have hs : (processActivity l st a).first_timestamp = st.first_timestamp := by
      rw [processActivity_first_timestamp]
      rw [if_neg]
      rintro ⟨-, h2⟩
      exact h2 h
    rw [ih _ (by rw [hs]; exact h), hs]

theorem foldl_first_timestamp (l : List (String × String)) :
    ∀ (acts : List Activity) (st : BuildState), pyTruthyO st.first_timestamp = false →
      (acts.foldl (processActivity l) st).first_timestamp =
        (match (acts.filterMap tsOf).head? with
         | some t => some t
         | none => st.first_timestamp) := by
  intro acts
  induction acts with
  | nil => intro st _; simp [List.filterMap]
  | cons a acts ih =>
    intro st h
    rw [List.foldl_cons, List.filterMap_cons]
    by_cases hp : pyTruthyO (_get_timestamp a) = true
    · have hts : tsOf a = _get_timestamp a := if_pos hp
      rcases hg : _get_timestamp a with _ | s
      · rw [hg] at hp
        simp [pyTruthyO] at hp
      · have hs : (processActivity l st a).first_timestamp = some s := by
          rw [processActivity_first_timestamp,
            if_pos ⟨hp, by rw [h]; exact Bool.false_ne_true⟩, hg]
        rw [hts, hg]
        rw [foldl_first_timestamp_stable l acts _ (by rw [hs]; rw [hg] at hp; exact hp), hs]
        simp
    · have hts : tsOf a = none := if_neg hp
      have hs : (processActivity l st a).first_timestamp = st.first_timestamp := by
        rw [processActivity_first_timestamp]
        rw [if_neg]
        rintro ⟨h2, -⟩
        exact hp h2
      rw [hts, ih _ (by rw [hs]; exact h), hs]

theorem foldl_last_timestamp (l : List (String × String)) :
    ∀ (acts : List Activity) (st : BuildState),
      (acts.foldl (processActivity l) st).last_timestamp =
        (match (acts.filterMap tsOf).getLast? with
         | some t => some t
         | none => st.last_timestamp) := by
  intro acts
  induction acts with
  | nil => intro st; simp [List.filterMap]
  | cons a acts ih =>
    intro st
    rw [List.foldl_cons, List.filterMap_cons]
    by_cases hp : pyTruthyO (_get_timestamp a) = true
    · have hts : tsOf a = _get_timestamp a := if_pos hp
      rcases hg : _get_timestamp a with _ | s
      · rw [hg] at hp
        simp [pyTruthyO] at hp
      · have hs : (processActivity l st a).last_timestamp = some s := by
          rw [processActivity_last_timestamp, if_pos hp, hg]
        rw [hts, hg, ih, hs]
        rw [List.getLast?_cons]
        rcases hL : (acts.filterMap tsOf).getLast? with _ | t
        · simp [List.getLastD_eq_getLast?, hL]
        · simp [List.getLastD_eq_getLast?, hL]
    · have hts : tsOf a = none := if_neg hp
      have hs : (processActivity l st a).last_timestamp = st.last_timestamp := by
        rw [processActivity_last_timestamp, if_neg hp]
      rw [hts, ih, hs]

/-- C5 (amended): total_elapsed_ms is the elapsed time between the
timestamp STRINGS of the first and last activities that yielded one
(parsed or not); it is 0.0 when either endpoint string fails to parse,
and 0.0 when fewer than two activities yield timestamp strings. -/
theorem C5_total_elapsed_between_timestamp_strings
    (activities : List Activity) (schema_lookup : List (String × String)) :
    (build_timeline activities schema_lookup).total_elapsed_ms =
      _ms_between ((activities.filterMap tsOf).head?)
        ((activities.filterMap tsOf).getLast?) := by
  show _ms_between
      (activities.foldl (processActivity schema_lookup) {}).first_timestamp
      (activities.foldl (processActivity schema_lookup) {}).last_timestamp = _
  rw [foldl_first_timestamp schema_lookup activities {} rfl,
    foldl_last_timestamp schema_lookup activities {}]
  rcases (activities.filterMap tsOf).head? with _ | t <;>
    rcases (activities.filterMap tsOf).getLast? with _ | u <;> rfl

/-- The concrete activities refuting claim C5 as stated: the first
activity yields an unparseable timestamp string, the second and third
parseable ones one second apart. -/
def c5acts : List Activity :=
  [{ type := "probe", timestamp := some "bogus" },
   { type := "probe", timestamp := some "2024-01-01T00:00:01.5Z" },
   { type := "probe", timestamp := some "2024-01-01T00:00:02.5Z" }]

/-- C5 counterexample: the code computes total_elapsed_ms = 0.0 on
c5acts because the first timestamp STRING does not parse, while the
first and last activities that successfully yielded a PARSED timestamp
are one second apart, so the claimed value is 1000.0. -/
theorem C5_counterexample :
    (build_timeline c5acts []).total_elapsed_ms = 0 ∧
    _parse_timestamp (some "bogus") = none ∧
    _parse_timestamp (some "2024-01-01T00:00:01.5Z") ≠ none ∧
    _parse_timestamp (some "2024-01-01T00:00:02.5Z") ≠ none ∧
    _ms_between (some "2024-01-01T00:00:01.5Z") (some "2024-01-01T00:00:02.5Z") = 1000 := by
  refine ⟨by decide, by decide, by decide, by decide, by decide⟩

/-- The duration invariant every appended phase satisfies: duration_ms is
exactly the _ms_between value of its start and end fields. -/
def durInv (p : ExecutionPhase) : Prop :=
  p.duration_ms = _ms_between p.start p.«end»

theorem handleStepFinished_phases_inv (l : List (String × String)) (st : BuildState) (a : Activity) :
    ∀ p ∈ (handleStepFinished l st a).phases, p ∈ st.phases ∨ durInv p := by
  intro p hp
  rw [show (handleStepFinished l st a).phases = st.phases ++
      [{ label := resolve_topic_name a.value.taskDialogId l,
         phase_type := a.value.type,
         start := st.step_triggers.lookup a.value.stepId,
         «end» := _get_timestamp a,
         duration_ms :=
           if pyTruthyO (st.step_triggers.lookup a.value.stepId) ∧ pyTruthyO (_get_timestamp a)
           then _ms_between (st.step_triggers.lookup a.value.stepId) (_get_timestamp a)
           else 0,
         state := a.value.state }] from rfl, List.mem_append] at hp
  rcases hp with h | h
  · exact Or.inl h
  · right
    rw [List.mem_singleton] at h
    subst h
    unfold durInv
    dsimp only
    by_cases hg : pyTruthyO (st.step_triggers.lookup a.value.stepId) = true ∧
        pyTruthyO (_get_timestamp a) = true
    · rw [if_pos hg]
    · rw [if_neg hg]
      rcases not_and_or.mp hg with h1 | h1
      · exact (_ms_between_start_none _ _ (pyTruthyO_false_parse _ (by simpa using h1))).symm
      · exact (_ms_between_end_none _ _ (pyTruthyO_false_parse _ (by simpa using h1))).symm

theorem handleEvent_phases_inv (l : List (String × String)) (st : BuildState) (a : Activity) :
    ∀ p ∈ (handleEvent l st a).phases, p ∈ st.phases ∨ durInv p := by
  simp only [handleEvent]
  repeat' split
  all_goals first
    | exact fun p hp => Or.inl hp
    | exact handleStepFinished_phases_inv l st a

theorem classify_phases_inv (l : List (String × String)) (st : BuildState) (a : Activity) :
    ∀ p ∈ (classify l st a).phases, p ∈ st.phases ∨ durInv p := by
  simp only [classify, handleTrace]
  repeat' split
  all_goals first
    | exact fun p hp => Or.inl hp
    | exact handleEvent_phases_inv l st a

theorem processActivity_phases_inv (l : List (String × String)) (st : BuildState) (a : Activity) :
    ∀ p ∈ (processActivity l st a).phases, p ∈ st.phases ∨ durInv p :=
  classify_phases_inv l (trackSummary st a) a

theorem foldl_phases_inv (l : List (String × String)) :
    ∀ (acts : List Activity) (st : BuildState), (∀ p ∈ st.phases, durInv p) →
      ∀ p ∈ (acts.foldl (processActivity l) st).phases, durInv p := by
  intro acts
  induction acts with
  | nil => intro st h; exact h
  | cons a acts ih =>
    intro st h
    rw [List.foldl_cons]
    exact ih _ (fun p hp => (processActivity_phases_inv l st a p hp).elim (h p) id)

/-- C3 (amended): every ExecutionPhase duration_ms equals the _ms_between
value of its start and end instants — in particular 0.0 whenever either
instant is missing or unparseable — but the value is the SIGNED time
difference, which is negative when the finish timestamp precedes the
recorded trigger timestamp, so duration_ms is not non-negative in
general. -/
theorem C3_duration_eq_ms_between
    (activities : List Activity) (schema_lookup : List (String × String)) :
    ∀ p ∈ (build_timeline activities schema_lookup).phases,
      p.duration_ms = _ms_between p.start p.«end» ∧
      ((_parse_timestamp p.start = none ∨ _parse_timestamp p.«end» = none) →
        p.duration_ms = 0) := by
  intro p hp
  have hd : durInv p :=
    foldl_phases_inv schema_lookup activities {}
      (fun q hq => absurd hq (List.not_mem_nil q)) p hp
  refine ⟨hd, ?_⟩
  intro hcase
  rw [hd]
  rcases hcase with h | h
  · exact _ms_between_start_none _ _ h
  · exact _ms_between_end_none _ _ h

/-- A step trigger followed by a step finish whose timestamp lies one
second EARLIER (position order disagreeing with timestamp order). -/
def c3acts : List Activity :=
  [{ type := "event", valueType := "DynamicPlanStepTriggered",
     timestamp := some "2024-01-01T00:00:02.5Z", position := 1,
     value := { taskDialogId := "bot.topic.T", stepId := "s1", type := "invokeTask" } },
   { type := "event", valueType := "DynamicPlanStepFinished",
     timestamp := some "2024-01-01T00:00:01.5Z", position := 2,
     value := { taskDialogId := "bot.topic.T", stepId := "s1", type := "invokeTask",
                state := "completed" } }]

/-- C3 counterexample: on c3acts the single reconstructed phase has
duration_ms = -1000.0, a negative value, refuting duration
non-negativity as claimed. -/
theorem C3_counterexample :
    ((build_timeline c3acts []).phases.map ExecutionPhase.duration_ms) =
      [Rat.divInt (-1000) 1] ∧
    Rat.divInt (-1000) 1 < 0 := by
  exact ⟨by decide, by decide⟩

/-- The activities of the C3 witness: a trigger/finish pair 1700
milliseconds apart. -/
def c3wacts : List Activity :=
  [{ type := "event", valueType := "DynamicPlanStepTriggered",
     timestamp := some "2024-01-01T00:00:01.5Z", position := 1,
     value := { taskDialogId := "bot.topic.T", stepId := "s1", type := "invokeTask" } },
   { type := "event", valueType := "DynamicPlanStepFinished",
     timestamp := some "2024-01-01T00:00:03.2Z", position := 2,
     value := { taskDialogId := "bot.topic.T", stepId := "s1", type := "invokeTask",
                state := "completed" } }]

/-- The phase the C3 witness exhibits. -/
def c3phase : ExecutionPhase :=
  { label := "T", phase_type := "invokeTask",
    start := some "2024-01-01T00:00:01.5Z",
    «end» := some "2024-01-01T00:00:03.2Z",
    duration_ms := 1700,
    state := "completed" }

theorem C3_duration_eq_ms_between_witness :
    c3phase ∈ (build_timeline c3wacts []).phases ∧
    (c3phase.duration_ms = _ms_between c3phase.start c3phase.«end» ∧
      ((_parse_timestamp c3phase.start = none ∨ _parse_timestamp c3phase.«end» = none) →
        c3phase.duration_ms = 0)) :=
  ⟨by decide, C3_duration_eq_ms_between c3wacts [] c3phase (by decide)⟩

/-- The single-line invariant of bot-message events: a BOT_MESSAGE
summary contains no newline character. -/
def singleLineInv (e : TimelineEvent) : Prop :=
  e.event_type = EventType.BOT_MESSAGE → '\n' ∉ e.summary.data

theorem singleLineInv_of_ne (e : TimelineEvent)
    (h : e.event_type ≠ EventType.BOT_MESSAGE) : singleLineInv e :=
  fun ht => absurd ht h

theorem mem_append_singleton {α : Type} (e x : α) (xs : List α) (h : e ∈ xs ++ [x]) :
    e ∈ xs ∨ e = x := by
  simpa [List.mem_append] using h

theorem mem_pyReplaceChar (c₀ pat : Char) (rep s : String)
    (h : c₀ ∈ (pyReplaceChar s pat rep).data) :
    c₀ ∈ rep.data ∨ (c₀ ∈ s.data ∧ c₀ ≠ pat) := by
  rw [show (pyReplaceChar s pat rep).data =
      s.data.flatMap (fun c => if c = pat then rep.data else [c]) from rfl,
    List.mem_flatMap] at h
  obtain ⟨c, hc, hmem⟩ := h
  by_cases hcp : c = pat
  · rw [if_pos hcp] at hmem
    exact Or.inl hmem
  · rw [if_neg hcp] at hmem
    rw [List.mem_singleton] at hmem
    subst hmem
    exact Or.inr ⟨hc, hcp⟩

theorem newline_not_mem_clean (s : String) :
    '\n' ∉ (pyReplaceChar (pyReplaceChar s '\n' " ") '\r' "").data := by
  intro h
  rcases mem_pyReplaceChar _ _ _ _ h with h1 | ⟨h1, -⟩
  · exact absurd h1 (by decide)
  · rcases mem_pyReplaceChar _ _ _ _ h1 with h2 | ⟨-, h2⟩
    · exact absurd h2 (by decide)
    · exact h2 rfl

theorem newline_not_mem_trunc (cl : String) (hcl : '\n' ∉ cl.data) :
    '\n' ∉ (if 120 < pyLen cl then pyTake cl 120 ++ "..." else cl).data := by
  intro h
  split at h
  · rw [show (pyTake cl 120 ++ "...").data = cl.data.take 120 ++ "...".data from rfl,
      List.mem_append] at h
    rcases h with h | h
    · exact hcl (List.take_subset 120 _ h)
    · exact absurd h (by decide)
  · exact hcl h

theorem newline_not_mem_botSummaryText (a : Activity) :
    '\n' ∉ (botSummaryText a).data := by
  unfold botSummaryText
  exact newline_not_mem_trunc _ (newline_not_mem_clean _)

theorem handleBotMessage_events_inv (st : BuildState) (a : Activity) :
    ∀ e ∈ (handleBotMessage st a).events, e ∈ st.events ∨ singleLineInv e := by
  intro e he
  rcases mem_append_singleton e _ st.events he with h | h
  · exact Or.inl h
  · right
    subst h
    intro _
    show '\n' ∉
      (if botSummaryText a ≠ "" then "Bot: " ++ botSummaryText a else "Bot message").data
    split
    · rw [show ("Bot: " ++ botSummaryText a).data =
        "Bot: ".data ++ (botSummaryText a).data from rfl, List.mem_append]
      rintro (h | h)
      · exact absurd h (by decide)
      · exact newline_not_mem_botSummaryText a h
    · decide

theorem handleEvent_events_inv (l : List (String × String)) (st : BuildState) (a : Activity) :
    ∀ e ∈ (handleEvent l st a).events, e ∈ st.events ∨ singleLineInv e := by
  simp only [handleEvent]
  repeat' split
  all_goals first
    | exact fun e he => Or.inl he
    | (intro e he
       rcases mem_append_singleton e _ st.events he with h | h
       · exact Or.inl h
       · right
         subst h
         exact singleLineInv_of_ne _ (fun hx => EventType.noConfusion hx))

theorem classify_events_inv (l : List (String × String)) (st : BuildState) (a : Activity) :
    ∀ e ∈ (classify l st a).events, e ∈ st.events ∨ singleLineInv e := by
  simp only [classify, handleTrace]
  repeat' split
  all_goals first
    | exact fun e he => Or.inl he
    | exact handleBotMessage_events_inv st a
    | exact handleEvent_events_inv l st a
    | (intro e he
       rcases mem_append_singleton e _ st.events he with h | h
       · exact Or.inl h
       · right
         subst h
         exact singleLineInv_of_ne _ (fun hx => EventType.noConfusion hx))

theorem processActivity_events_inv (l : List (String × String)) (st : BuildState) (a : Activity) :
    ∀ e ∈ (processActivity l st a).events, e ∈ st.events ∨ singleLineInv e :=
  classify_events_inv l (trackSummary st a) a

theorem foldl_events_inv (l : List (String × String)) :
    ∀ (acts : List Activity) (st : BuildState), (∀ e ∈ st.events, singleLineInv e) →
      ∀ e ∈ (acts.foldl (processActivity l) st).events, singleLineInv e := by
  intro acts
  induction acts with
  | nil => intro st h; exact h
  | cons a acts ih =>
    intro st h
    rw [List.foldl_cons]
    exact ih _ (fun e he => (processActivity_events_inv l st a e he).elim (h e) id)

/-- C4 (amended): BOT_MESSAGE summaries never contain an embedded
newline (the builder strips newlines from the message or card text
before truncation); summaries of the other event kinds quote source
text verbatim and can embed newlines. -/
theorem C4_bot_summaries_single_line
    (activities : List Activity) (schema_lookup : List (String × String)) :
    ∀ e ∈ (build_timeline activities schema_lookup).events,
      e.event_type = EventType.BOT_MESSAGE → '\n' ∉ e.summary.data :=
  foldl_events_inv schema_lookup activities {}
    (fun e he => absurd he (List.not_mem_nil e))

/-- One user message whose text embeds a newline. -/
def c4acts : List Activity :=
  [{ type := "message", fromInfo := { role := "user" }, text := "a\nb" }]

/-- C4 counterexample: the USER_MESSAGE summary quotes the text
verbatim, so the summary of the single produced event embeds a newline,
refuting the claim that no event summary ever contains one. -/
theorem C4_counterexample :
    ((build_timeline c4acts []).events.map TimelineEvent.summary) = ["User: \"a\nb\""] ∧
    '\n' ∈ ("User: \"a\nb\"").data := by
  exact ⟨by decide, by decide⟩

/-- One bot message whose text embeds a newline and a carriage return. -/
def c4wacts : List Activity :=
  [{ type := "message", fromInfo := { role := "bot" }, text := "line1\nline2\rx" }]

/-- The bot-message event the C4 witness exhibits. -/
def c4event : TimelineEvent :=
  { event_type := EventType.BOT_MESSAGE, summary := "Bot: line1 line2x" }

theorem C4_bot_summaries_single_line_witness :
    (c4event ∈ (build_timeline c4wacts []).events ∧
      c4event.event_type = EventType.BOT_MESSAGE) ∧
    '\n' ∉ c4event.summary.data :=
  ⟨⟨by decide, by decide⟩,
    C4_bot_summaries_single_line c4wacts [] c4event (by decide) (by decide)⟩

theorem handleStepFinished_phases (l : List (String × String)) (st : BuildState) (a : Activity) :
    (handleStepFinished l st a).phases = st.phases ++
      [{ label := resolve_topic_name a.value.taskDialogId l,
         phase_type := a.value.type,
         start := st.step_triggers.lookup a.value.stepId,
         «end» := _get_timestamp a,
         duration_ms :=
           if pyTruthyO (st.step_triggers.lookup a.value.stepId) ∧ pyTruthyO (_get_timestamp a)
           then _ms_between (st.step_triggers.lookup a.value.stepId) (_get_timestamp a)
           else 0,
         state := a.value.state }] := rfl

theorem handleStepFinished_errors (l : List (String × String)) (st : BuildState) (a : Activity) :
    (handleStepFinished l st a).errors =
      if errTruthy a.value.error then
        st.errors ++ [resolve_topic_name a.value.taskDialogId l ++ ": " ++ errMessage a.value.error]
      else if a.value.state = "failed" then
        st.errors ++ [resolve_topic_name a.value.taskDialogId l ++ ": failed"]
      else st.errors := rfl

theorem handleStepTriggered_step_triggers (l : List (String × String)) (st : BuildState) (a : Activity) :
    (handleStepTriggered l st a).step_triggers =
      if a.value.stepId ≠ "" ∧ pyTruthyO (_get_timestamp a) then
        (a.value.stepId, (_get_timestamp a).getD "") :: st.step_triggers
      else st.step_triggers := rfl

theorem handleDialogTracing_errors (l : List (String × String)) (st : BuildState) (a : Activity) :
    (handleDialogTracing l st a).errors = st.errors ++ tracingErrors l a.value.actions := rfl

/-- A processed step-finished activity whose step id has no recorded
trigger appends exactly one phase, with no start instant and zero
duration, carrying the state and resolved topic of the finish record. -/
theorem processActivity_finished_phases (l : List (String × String)) (st : BuildState)
    (a : Activity) (htype : a.type = "event")
    (hvt : valueTypeOf a = "DynamicPlanStepFinished")
    (hnone : st.step_triggers.lookup a.value.stepId = none) :
    (processActivity l st a).phases = st.phases ++
      [{ label := resolve_topic_name a.value.taskDialogId l,
         phase_type := a.value.type,
         start := none,
         «end» := _get_timestamp a,
         duration_ms := 0,
         state := a.value.state }] := by
  show (classify l (trackSummary st a) a).phases = _
  rw [classify_event_stepFinished l (trackSummary st a) a htype hvt,
    handleStepFinished_phases, trackSummary_phases, trackSummary_step_triggers, hnone]
  rw [if_neg]
  rintro ⟨h1, -⟩
  exact Bool.false_ne_true h1

/-- A processed step-finished activity grows the error list by exactly
one entry when it carries a non-empty error object or a failed state,
and by none otherwise. -/
theorem processActivity_finished_errors_length (l : List (String × String)) (st : BuildState)
    (a : Activity) (htype : a.type = "event")
    (hvt : valueTypeOf a = "DynamicPlanStepFinished") :
    (processActivity l st a).errors.length = st.errors.length +
      (if errTruthy a.value.error ∨ a.value.state = "failed" then 1 else 0) := by
  show (classify l (trackSummary st a) a).errors.length = _
  rw [classify_event_stepFinished l (trackSummary st a) a htype hvt,
    handleStepFinished_errors, trackSummary_errors]
  by_cases he : errTruthy a.value.error = true
  · rw [if_pos he, if_pos (Or.inl he)]
    simp
  · rw [if_neg he]
    by_cases hf : a.value.state = "failed"
    · rw [if_pos hf, if_pos (Or.inr hf)]
      simp
    · rw [if_neg hf, if_neg ?_]
      · simp
      · rintro (h | h)
        · exact he h
        · exact hf h

theorem length_filterMap_guard {α β : Type} (f : α → β) (p : α → Prop) [DecidablePred p] :
    ∀ xs : List α,
      (xs.filterMap (fun x => if p x then some (f x) else none)).length =
        (xs.filter (fun x => decide (p x))).length := by
  intro xs
  induction xs with
  | nil => rfl
  | cons x xs ih =>
    by_cases hp : p x
    · simp [List.filterMap_cons, List.filter_cons, hp, ih]
    · simp [List.filterMap_cons, List.filter_cons, hp, ih]

theorem tracingErrors_length (l : List (String × String)) (actions : List SubAction) :
    (tracingErrors l actions).length =
      (actions.filter (fun ac => ac.exception ≠ "")).length :=
  length_filterMap_guard
    (fun ac : SubAction =>
      resolve_topic_name ac.topicId l ++ "." ++ ac.actionType ++ ": " ++ ac.exception)
    (fun ac : SubAction => ac.exception ≠ "") actions

/-- C7: a step-finished activity whose step id has no recorded trigger
does not break reconstruction: a phase is still appended, with
duration_ms = 0.0, no start instant, and the state and resolved topic
carried by the finish record; and when that record's state is "failed",
exactly one string is appended to the error list. -/
theorem C7_unmatched_step_finished (l : List (String × String)) (st : BuildState)
    (a : Activity) (htype : a.type = "event")
    (hvt : valueTypeOf a = "DynamicPlanStepFinished")
    (hnone : st.step_triggers.lookup a.value.stepId = none) :
    (processActivity l st a).phases = st.phases ++
      [{ label := resolve_topic_name a.value.taskDialogId l,
         phase_type := a.value.type,
         start := none,
         «end» := _get_timestamp a,
         duration_ms := 0,
         state := a.value.state }] ∧
    (a.value.state = "failed" →
      (processActivity l st a).errors.length = st.errors.length + 1) := by
  refine ⟨processActivity_finished_phases l st a htype hvt hnone, ?_⟩
  intro hfail
  rw [processActivity_finished_errors_length l st a htype hvt, if_pos (Or.inr hfail)]

/-- The step-finished activity with a failed state and no prior trigger
used to witness C7. -/
def w7 : Activity :=
  { type := "event", valueType := "DynamicPlanStepFinished",
    timestamp := some "2024-01-01T00:00:03.2Z", position := 2,
    value := { taskDialogId := "bot.topic.T", stepId := "sX", state := "failed" } }

theorem C7_unmatched_step_finished_witness :
    (processActivity [] {} w7).phases =
      [{ label := "T", phase_type := "", start := none,
         «end» := some "2024-01-01T00:00:03.2Z", duration_ms := 0, state := "failed" }] ∧
    (processActivity [] {} w7).errors.length = 1 := by
  have h := C7_unmatched_step_finished [] {} w7 rfl rfl rfl
  exact ⟨h.1, h.2 rfl⟩

/-- C8: a step-finished record with a failed state or a non-empty error
object contributes exactly one string to errors (one, not two, when
both are present, and none otherwise), and a dialog-trace record
contributes exactly one string per sub-action with a non-empty
exception. -/
theorem C8_error_list_contributions (l : List (String × String)) (st : BuildState)
    (a : Activity) (htype : a.type = "event") :
    (valueTypeOf a = "DynamicPlanStepFinished" →
      (processActivity l st a).errors.length = st.errors.length +
        (if errTruthy a.value.error ∨ a.value.state = "failed" then 1 else 0)) ∧
    (valueTypeOf a = "DialogTracingInfo" →
      (processActivity l st a).errors.length = st.errors.length +
        (a.value.actions.filter (fun ac => ac.exception ≠ "")).length) := by
  constructor
  · intro hvt
    exact processActivity_finished_errors_length l st a htype hvt
  · intro hvt
    show (classify l (trackSummary st a) a).errors.length = _
    rw [classify_event_dialogTracing l (trackSummary st a) a htype hvt,
      handleDialogTracing_errors, trackSummary_errors, List.length_append,
      tracingErrors_length]

/-- The step-finished activity carrying BOTH a failed state and a
non-empty error object used to witness C8 (exactly one error string,
not two). -/
def w8a : Activity :=
  { type := "event", valueType := "DynamicPlanStepFinished",
    timestamp := some "2024-01-01T00:00:03.2Z",
    value := { taskDialogId := "bot.topic.T", stepId := "s9", state := "failed",
               error := some [("message", "boom")] } }

/-- The dialog-trace activity with two excepting sub-actions and one
clean one used to witness C8. -/
def w8b : Activity :=
  { type := "event", valueType := "DialogTracingInfo",
    timestamp := some "2024-01-01T00:00:03.2Z",
    value := { actions := [
      { topicId := "bot.topic.A", actionType := "HttpRequestAction", exception := "timeout" },
      { topicId := "bot.topic.A", actionType := "SendActivity" },
      { topicId := "bot.topic.B", actionType := "BeginDialog", exception := "denied" }] } }

theorem C8_error_list_contributions_witness :
    (processActivity [] {} w8a).errors.length = 1 ∧
    (processActivity [] {} w8b).errors.length = 2 :=
  ⟨(C8_error_list_contributions [] {} w8a rfl).1 rfl,
   (C8_error_list_contributions [] {} w8b rfl).2 rfl⟩

/-- C9: a step-triggered activity with an empty step id or no truthy
timestamp records nothing in the step-correlation map, so a later
step-finished activity carrying that id (with no other recorded trigger)
yields a phase with no start instant and duration_ms = 0.0 even though
both records were present. -/
theorem C9_defective_trigger_drops_correlation (l : List (String × String)) (st : BuildState)
    (a1 a2 : Activity)
    (h1t : a1.type = "event") (h1v : valueTypeOf a1 = "DynamicPlanStepTriggered")
    (hdef : a1.value.stepId = "" ∨ pyTruthyO (_get_timestamp a1) = false)
    (h2t : a2.type = "event") (h2v : valueTypeOf a2 = "DynamicPlanStepFinished")
    (hsame : a2.value.stepId = a1.value.stepId)
    (hnone : st.step_triggers.lookup a1.value.stepId = none) :
    (processActivity l st a1).step_triggers = st.step_triggers ∧
    (processActivity l (processActivity l st a1) a2).phases =
      (processActivity l st a1).phases ++
      [{ label := resolve_topic_name a2.value.taskDialogId l,
         phase_type := a2.value.type,
         start := none,
         «end» := _get_timestamp a2,
         duration_ms := 0,
         state := a2.value.state }] := by
  have hstep : (processActivity l st a1).step_triggers = st.step_triggers := by
    show (classify l (trackSummary st a1) a1).step_triggers = st.step_triggers
    rw [classify_event_stepTriggered l (trackSummary st a1) a1 h1t h1v,
      handleStepTriggered_step_triggers, trackSummary_step_triggers]
    rw [if_neg]
    rintro ⟨hne, htr⟩
    rcases hdef with h | h
    · exact hne h
    · rw [htr] at h
      exact absurd h (by decide)
  refine ⟨hstep, ?_⟩
  exact processActivity_finished_phases l _ a2 h2t h2v
    (by rw [hstep, hsame]; exact hnone)

/-- The step-triggered activity with an empty step id used to witness
C9. -/
def w9a : Activity :=
  { type := "event", valueType := "DynamicPlanStepTriggered",
    timestamp := some "2024-01-01T00:00:01.5Z",
    value := { taskDialogId := "bot.topic.T", stepId := "" } }

/-- The step-finished activity carrying the same empty step id used to
witness C9. -/
def w9b : Activity :=
  { type := "event", valueType := "DynamicPlanStepFinished",
    timestamp := some "2024-01-01T00:00:02.5Z",
    value := { taskDialogId := "bot.topic.T", stepId := "", state := "completed" } }

theorem C9_defective_trigger_drops_correlation_witness :
    (processActivity [] {} w9a).step_triggers = [] ∧
    (processActivity [] (processActivity [] {} w9a) w9b).phases =
      (processActivity [] {} w9a).phases ++
      [{ label := "T", phase_type := "", start := none,
         «end» := some "2024-01-01T00:00:02.5Z", duration_ms := 0, state := "completed" }] :=
  C9_defective_trigger_drops_correlation [] {} w9a w9b rfl rfl (Or.inl rfl) rfl rfl rfl rfl

/-- C10: a typing activity appends no event, no phase and no error
string, and leaves the user query and correlation map unchanged, yet it
still feeds the summary accumulators evaluated before the skip: its
timestamp updates the first/last bounds, its sender display name can set
bot_name (first write) and its conversation id can set conversation_id
(first write). -/
theorem C10_typing_frame_effect (l : List (String × String)) (st : BuildState)
    (a : Activity) (h : a.type = "typing") :
    (processActivity l st a).events = st.events ∧
    (processActivity l st a).phases = st.phases ∧
    (processActivity l st a).errors = st.errors ∧
    (processActivity l st a).user_query = st.user_query ∧
    (processActivity l st a).step_triggers = st.step_triggers ∧
    (processActivity l st a).bot_name =
      (if ¬ pyTruthy st.bot_name ∧ a.fromInfo.name ≠ "" ∧ a.fromInfo.role = "bot" then
        a.fromInfo.name
       else st.bot_name) ∧
    (processActivity l st a).conversation_id =
      (if ¬ pyTruthy st.conversation_id ∧ a.conversation.id ≠ "" then a.conversation.id
       else st.conversation_id) ∧
    (processActivity l st a).first_timestamp =
      (if pyTruthyO (_get_timestamp a) ∧ ¬ pyTruthyO st.first_timestamp then _get_timestamp a
       else st.first_timestamp) ∧
    (processActivity l st a).last_timestamp =
      (if pyTruthyO (_get_timestamp a) then _get_timestamp a else st.last_timestamp) := by
  have hc : processActivity l st a = trackSummary st a :=
    classify_typing l (trackSummary st a) a h
  rw [hc]
  exact ⟨rfl, rfl, rfl, rfl, rfl, trackSummary_bot_name st a,
    trackSummary_conversation_id st a, trackSummary_first_timestamp st a,
    trackSummary_last_timestamp st a⟩

/-- The typing activity with sender name, conversation id and timestamp
used to witness C10. -/
def w10 : Activity :=
  { type := "typing", fromInfo := { role := "bot", name := "Bot B" },
    timestamp := some "2024-01-01T00:00:07.5Z", conversation := { id := "c9" } }

theorem C10_typing_frame_effect_witness :
    (processActivity [] {} w10).events = [] ∧
    (processActivity [] {} w10).phases = [] ∧
    (processActivity [] {} w10).errors = [] ∧
    (processActivity [] {} w10).user_query = "" ∧
    (processActivity [] {} w10).step_triggers = [] ∧
    (processActivity [] {} w10).bot_name = "Bot B" ∧
    (processActivity [] {} w10).conversation_id = "c9" ∧
    (processActivity [] {} w10).first_timestamp = some "2024-01-01T00:00:07.5Z" ∧
    (processActivity [] {} w10).last_timestamp = some "2024-01-01T00:00:07.5Z" := by
  have h := C10_typing_frame_effect [] {} w10 rfl
  exact ⟨h.1, h.2.1, h.2.2.1, h.2.2.2.1, h.2.2.2.2.1, h.2.2.2.2.2.1,
    h.2.2.2.2.2.2.1, h.2.2.2.2.2.2.2.1, h.2.2.2.2.2.2.2.2⟩

/-- C2: _parse_timestamp returns none on the well-formed timestamp
2024-01-01T00:00:00Z, because the source's rstrip of the string
"+00:00" removes the trailing CHARACTER SET plus/zero/colon and mangles
the string to 2024-01-01T, which fromisoformat rejects; a sibling
well-formed timestamp whose seconds do not end in such a character
parses fine, and the raw mangled remainder indeed fails to parse. -/
theorem C2_parse_rejects_wellformed_zero_suffixed_timestamp :
    _parse_timestamp (some "2024-01-01T00:00:00Z") = none ∧
    _parse_timestamp (some "2024-01-01T00:00:00+00:00") = none ∧
    _parse_timestamp (some "2024-01-01T12:34:56Z") =
      some { year := 2024, month := 1, day := 1, hour := 12, minute := 34,
             second := 56, microsecond := 0 } ∧
    pyRstrip (pyRstrip "2024-01-01T00:00:00Z" ['Z']) ['+', '0', ':'] = "2024-01-01T" :=
  ⟨by decide, by decide, by decide, by decide⟩

/-- The dialog-trace activity of the repository's own test
test_dialog_tracing_split_into_individual_events: three sub-actions
tagged HttpRequestAction, BeginDialog, SendActivity. -/
def c1acts : List Activity :=
  [{ type := "event", valueType := "DialogTracingInfo",
     fromInfo := { role := "bot", name := "TestBot" },
     timestamp := some "2024-01-01T00:00:00Z", position := 1,
     conversation := { id := "conv-1" },
     value := { actions := [
       { topicId := "bot.topic.Main", actionType := "HttpRequestAction" },
       { topicId := "bot.topic.Main", actionType := "BeginDialog" },
       { topicId := "bot.topic.Main", actionType := "SendActivity" }] } }]

/-- The schema lookup of that test. -/
def c1lookup : List (String × String) := [("bot.topic.Main", "Main Topic")]

/-- C1: on the three-sub-action dialog-trace record the builder emits
exactly ONE coalesced DialogTracing event whose summary lists the three
action-type tags, not three events of the action-specific types — the
action-specific event types are never produced. -/
theorem C1_dialog_tracing_coalesced :
    ((build_timeline c1acts c1lookup).events.map TimelineEvent.event_type) =
      [EventType.DIALOG_TRACING] ∧
    ((build_timeline c1acts c1lookup).events.map TimelineEvent.summary) =
      ["Actions: HttpRequestAction, BeginDialog, SendActivity in Main Topic"] ∧
    ((build_timeline c1acts c1lookup).events.filter (fun e =>
      e.event_type = EventType.ACTION_HTTP_REQUEST ∨
      e.event_type = EventType.ACTION_BEGIN_DIALOG ∨
      e.event_type = EventType.ACTION_SEND_ACTIVITY)) = [] :=
  ⟨by decide, by decide, by decide⟩
